import Mathlib

/-!
Verification development for the `netbox-turbobulk-public` repository.

Two parts of the repository are embedded here, translated from the Python
source:

* `examples/common/topology.py` — the `GPUDatacenterTopology` generator:
  cable/termination staging (`generate_cables`) and the label→ID binding
  step (`update_terminations_with_cable_ids`).
* `src/turbobulk_client/client.py` — the `TurboBulkClient` job-lifecycle
  methods: `_wait_for_job` (polling with timeout), `load`, `delete` and
  `export` (cache negotiation), together with `exceptions.py`.

Machine integers are `Nat` (all quantities involved are non-negative Python
ints).  Python string formatting (`str(n)`, zero-padded `f-strings` such as
the `06d` paddings of cable labels) is embedded by an executable decimal
printer defined below, and shown injective via an explicit decimal parser.
-/

/-! ## Decimal printing (Python `str(n)` and zero-padded formatting) -/

/-- The decimal digit character for `d` (`0`–`9`), i.e. codepoint `48 + d`. -/
def digitChar (d : Nat) : Char := Char.ofNat (48 + d)

/-- Fuel-driven accumulator loop producing the decimal digits of `n` in front
of `acc`.  Fuel `n + 1` always suffices since `n / 10 < n` for `n ≥ 10`. -/
def toDecimalAux : Nat → Nat → List Char → List Char
  | 0, _, acc => acc
  | fuel + 1, n, acc =>
      let acc' := digitChar (n % 10) :: acc
      if n < 10 then acc' else toDecimalAux fuel (n / 10) acc'

/-- Decimal digit list of `n`, most significant first (Python `str(n)`). -/
def natDigits (n : Nat) : List Char := toDecimalAux (n + 1) n []

/-- Python `str(n)` for a non-negative int. -/
def natLit (n : Nat) : String := ⟨natDigits n⟩

/-- Python `f-string` zero padding `f'{n:0{w}d}'`: pad the decimal digits of
`n` with leading `'0'` characters up to width `w`. -/
def padNat (w n : Nat) : String :=
  ⟨List.replicate (w - (natDigits n).length) '0' ++ natDigits n⟩

/-- Decimal parser (left fold), starting from accumulator `a`. -/
def parseFrom (a : Nat) (ds : List Char) : Nat :=
  ds.foldl (fun acc c => acc * 10 + (c.toNat - 48)) a

theorem digitChar_toNat (d : Nat) (hd : d < 10) : (digitChar d).toNat = 48 + d := by
  interval_cases d <;> decide

theorem parseFrom_append (a : Nat) (xs ys : List Char) :
    parseFrom a (xs ++ ys) = parseFrom (parseFrom a xs) ys := by
  simp [parseFrom, List.foldl_append]

theorem toDecimalAux_acc (fuel n : Nat) (acc : List Char) (h : n < fuel) :
    toDecimalAux fuel n acc = toDecimalAux fuel n [] ++ acc := by
  induction fuel generalizing n acc with
  | zero => omega
  | succ f ih =>
      by_cases h10 : n < 10
      · simp [toDecimalAux, h10]
      · have hdiv : n / 10 < f := by
          have h1 : n / 10 < n := Nat.div_lt_self (by omega) (by omega)
          omega
        simp only [toDecimalAux, h10, if_false]
        rw [ih (n / 10) (digitChar (n % 10) :: acc) hdiv, ih (n / 10) [digitChar (n % 10)] hdiv]
        simp

theorem parseFrom_natDigits (fuel n : Nat) (h : n < fuel) :
    parseFrom 0 (toDecimalAux fuel n []) = n := by
  induction fuel generalizing n with
  | zero => omega
  | succ f ih =>
      by_cases h10 : n < 10
      · have hone : toDecimalAux (f + 1) n [] = [digitChar (n % 10)] := by
          simp [toDecimalAux, h10]
        rw [hone]
        simp only [parseFrom, List.foldl]
        rw [digitChar_toNat (n % 10) (Nat.mod_lt _ (by omega))]
        omega
      · have hdiv : n / 10 < f := by
          have h1 : n / 10 < n := Nat.div_lt_self (by omega) (by omega)
          omega
        simp only [toDecimalAux, h10, if_false]
        rw [toDecimalAux_acc f (n / 10) _ hdiv, parseFrom_append, ih (n / 10) hdiv]
        have hm : n % 10 < 10 := Nat.mod_lt _ (by omega)
        simp [parseFrom, digitChar_toNat (n % 10) hm]
        omega

theorem parse_natDigits (n : Nat) : parseFrom 0 (natDigits n) = n :=
  parseFrom_natDigits (n + 1) n (by omega)

theorem parseFrom_zeros (k : Nat) (ds : List Char) :
    parseFrom 0 (List.replicate k '0' ++ ds) = parseFrom 0 ds := by
  induction k with
  | zero => simp
  | succ j ih => simpa [List.replicate_succ, parseFrom] using ih

theorem parse_padNat (w n : Nat) : parseFrom 0 (padNat w n).data = n := by
  simpa [padNat, parseFrom_zeros] using parse_natDigits n

theorem padNat_injective (w : Nat) : Function.Injective (padNat w) := by
  intro a b h
  have := congrArg (fun s : String => parseFrom 0 s.data) h
  simpa [parse_padNat] using this

theorem padNat_inj (w a b : Nat) (h : padNat w a = padNat w b) : a = b :=
  padNat_injective w h

/-! ## String helpers -/

theorem string_data_append (s t : String) : (s ++ t).data = s.data ++ t.data := rfl

theorem string_eq_of_data (s t : String) (h : s.data = t.data) : s = t := String.ext h

/-! ## Data model of `examples/common/topology.py` (`GPUDatacenterTopology`)

The Python dataclass field `prefix` is called `pfx` here (`prefix` is not
usable as a Lean field name); all other names follow the source. -/

structure GPUDatacenterTopology where
  pods : Nat := 8
  spines_per_pod : Nat := 4
  leaves_per_pod : Nat := 32
  gpu_servers_per_leaf : Nat := 16
  nics_per_gpu_server : Nat := 8
  spine_ports : Nat := 64
  leaf_ports : Nat := 64
  pfx : String := "gpu-dc"
  spine_interface_type : String := "400gbase-x-qsfpdd"
  leaf_interface_type : String := "400gbase-x-qsfpdd"
  server_interface_type : String := "400gbase-x-qsfpdd"
  fabric_cable_type : String := "mmf-om4"
  fabric_cable_status : String := "connected"
deriving DecidableEq, Repr

namespace GPUDatacenterTopology

/-- `total_spines` property. -/
def total_spines (t : GPUDatacenterTopology) : Nat := t.pods * t.spines_per_pod

/-- `total_leaves` property. -/
def total_leaves (t : GPUDatacenterTopology) : Nat := t.pods * t.leaves_per_pod

/-- `total_gpu_servers` property. -/
def total_gpu_servers (t : GPUDatacenterTopology) : Nat :=
  t.total_leaves * t.gpu_servers_per_leaf

/-- `leaf_uplinks` property: redundant connections to each spine in the pod. -/
def leaf_uplinks (t : GPUDatacenterTopology) : Nat := t.spines_per_pod * 2

/-- `leaf_downlinks` property (Python subtraction on ints; the spec's validity
invariant demands `leaf_uplinks ≤ leaf_ports`, under which `Nat` subtraction
agrees with the Python value). -/
def leaf_downlinks (t : GPUDatacenterTopology) : Nat := t.leaf_ports - t.leaf_uplinks

/-- `estimated_cables` property: spine-to-leaf cables plus leaf-to-server
cables. -/
def estimated_cables (t : GPUDatacenterTopology) : Nat :=
  t.total_leaves * t.leaf_uplinks + t.total_gpu_servers * t.nics_per_gpu_server

/-- Device name `f'{prefix}-spine-p{pod:02d}-s{s:02d}'`. -/
def spineName (t : GPUDatacenterTopology) (pod s : Nat) : String :=
  t.pfx ++ "-spine-p" ++ padNat 2 pod ++ "-s" ++ padNat 2 s

/-- Device name `f'{prefix}-leaf-p{pod:02d}-r{l:02d}'`. -/
def leafName (t : GPUDatacenterTopology) (pod l : Nat) : String :=
  t.pfx ++ "-leaf-p" ++ padNat 2 pod ++ "-r" ++ padNat 2 l

/-- Device name `f'{prefix}-gpu-p{pod:02d}-r{l:02d}-u{g:02d}'`. -/
def gpuName (t : GPUDatacenterTopology) (pod l g : Nat) : String :=
  t.pfx ++ "-gpu-p" ++ padNat 2 pod ++ "-r" ++ padNat 2 l ++ "-u" ++ padNat 2 g

end GPUDatacenterTopology

/-- A row of the `cables` column family built by `generate_cables`
(`type`/`status`/`label`/`color` are appended in lockstep in the source, so
the four parallel columns are modelled row-wise). -/
structure Cable where
  type : String
  status : String
  label : String
  color : String
deriving DecidableEq, Repr

/-- One entry of `termination_staging`: the tuple
`(label, a_iface_key, b_iface_key)`. -/
structure StagedTermination where
  label : String
  a_key : String
  b_key : String
deriving DecidableEq, Repr

/-- A cable together with its staged termination entry — the two records the
body of each generation loop appends in one iteration. -/
abbrev CSPair := Cable × StagedTermination

/-- Generic loop over a list of loop-counter values, threading a mutable
state `σ` (the integer counters of `generate_cables`) and accumulating the
records appended by the body, in iteration order. -/
def loopAcc {σ α : Type} (body : Nat → σ → List α × σ) : List Nat → σ → List α × σ
  | [], s => ([], s)
  | i :: is, s =>
      let hd := body i s
      let tl := loopAcc body is hd.2
      (hd.1 ++ tl.1, tl.2)

namespace GPUDatacenterTopology

/-- Body of the innermost spine↔leaf loop (`for redundant in range(2)`,
topology.py lines 346–361).  State is `(uplink_port, cable_idx)`. -/
def fabRedBody (t : GPUDatacenterTopology) (pod l s : Nat) :
    Nat → Nat × Nat → List CSPair × (Nat × Nat) := fun redundant st =>
  let uplink_port := st.1
  let cable_idx := st.2
  let leaf_iface := t.leafName pod l ++ ":eth" ++ natLit uplink_port
  let spine_port := (l * 2 + redundant) % t.spine_ports + 1
  let spine_iface := t.spineName pod s ++ ":eth" ++ natLit spine_port
  let label := t.pfx ++ "-fab-" ++ padNat 6 cable_idx
  ([(⟨t.fabric_cable_type, t.fabric_cable_status, label, "00ff00"⟩,
     ⟨label, leaf_iface, spine_iface⟩)],
   (uplink_port + 1, cable_idx + 1))

/-- `for s in range(self.spines_per_pod)` of the spine↔leaf pass. -/
def fabSpineBody (t : GPUDatacenterTopology) (pod l : Nat) :
    Nat → Nat × Nat → List CSPair × (Nat × Nat) := fun s st =>
  loopAcc (t.fabRedBody pod l s) (List.range 2) st

/-- `for l in range(self.leaves_per_pod)` of the spine↔leaf pass; each leaf
resets `uplink_port = 1` and threads only `cable_idx` onward. -/
def fabLeafBody (t : GPUDatacenterTopology) (pod : Nat) :
    Nat → Nat → List CSPair × Nat := fun l cable_idx =>
  let r := loopAcc (t.fabSpineBody pod l) (List.range t.spines_per_pod) (1, cable_idx)
  (r.1, r.2.2)

/-- `for pod in range(self.pods)` of the spine↔leaf pass. -/
def fabPodBody (t : GPUDatacenterTopology) : Nat → Nat → List CSPair × Nat :=
  fun pod cable_idx => loopAcc (t.fabLeafBody pod) (List.range t.leaves_per_pod) cable_idx

/-- The whole spine-to-leaf cabling pass (topology.py lines 335–361),
started with `cable_idx = 0`. -/
def fabPass (t : GPUDatacenterTopology) : List CSPair × Nat :=
  loopAcc t.fabPodBody (List.range t.pods) 0

/-- Body of the innermost leaf↔server loop
(`for nic in range(self.nics_per_gpu_server)`, topology.py lines 373–385).
State is `(downlink_port, cable_idx)`. -/
def srvNicBody (t : GPUDatacenterTopology) (pod l g : Nat) :
    Nat → Nat × Nat → List CSPair × (Nat × Nat) := fun nic st =>
  let downlink_port := st.1
  let cable_idx := st.2
  let leaf_iface := t.leafName pod l ++ ":eth" ++ natLit downlink_port
  let gpu_iface := t.gpuName pod l g ++ ":eth" ++ natLit (nic + 1)
  let label := t.pfx ++ "-srv-" ++ padNat 6 cable_idx
  ([(⟨t.fabric_cable_type, t.fabric_cable_status, label, "0000ff"⟩,
     ⟨label, leaf_iface, gpu_iface⟩)],
   (downlink_port + 1, cable_idx + 1))

/-- `for g in range(self.gpu_servers_per_leaf)` of the leaf↔server pass. -/
def srvGpuBody (t : GPUDatacenterTopology) (pod l : Nat) :
    Nat → Nat × Nat → List CSPair × (Nat × Nat) := fun g st =>
  loopAcc (t.srvNicBody pod l g) (List.range t.nics_per_gpu_server) st

/-- `for l in range(self.leaves_per_pod)` of the leaf↔server pass; each leaf
starts `downlink_port = self.leaf_uplinks + 1` and threads only `cable_idx`
onward. -/
def srvLeafBody (t : GPUDatacenterTopology) (pod : Nat) :
    Nat → Nat → List CSPair × Nat := fun l cable_idx =>
  let r := loopAcc (t.srvGpuBody pod l) (List.range t.gpu_servers_per_leaf)
    (t.leaf_uplinks + 1, cable_idx)
  (r.1, r.2.2)

/-- `for pod in range(self.pods)` of the leaf↔server pass. -/
def srvPodBody (t : GPUDatacenterTopology) : Nat → Nat → List CSPair × Nat :=
  fun pod cable_idx => loopAcc (t.srvLeafBody pod) (List.range t.leaves_per_pod) cable_idx

/-- The whole leaf-to-server cabling pass (topology.py lines 363–385),
continuing from the `cable_idx` reached by the spine-to-leaf pass. -/
def srvPass (t : GPUDatacenterTopology) (cable_idx : Nat) : List CSPair × Nat :=
  loopAcc t.srvPodBody (List.range t.pods) cable_idx

/-- All `(cable, staged termination)` records of `generate_cables`, in
generation order: the spine-to-leaf pass followed by the leaf-to-server pass,
sharing the single running `cable_idx` counter. -/
def cablePairs (t : GPUDatacenterTopology) : List CSPair :=
  (t.fabPass).1 ++ (t.srvPass (t.fabPass).2).1

/-- The `cables` records of `generate_cables`. -/
def cablesList (t : GPUDatacenterTopology) : List Cable := t.cablePairs.map Prod.fst

/-- The `termination_staging` list of `generate_cables`. -/
def staging (t : GPUDatacenterTopology) : List StagedTermination :=
  t.cablePairs.map Prod.snd

end GPUDatacenterTopology

/-! ## Characterizing the generation loops -/

theorem loopAcc_range' {σ α : Type} (body : Nat → σ → List α × σ)
    (chunk : Nat → σ → List α) (step : σ → σ)
    (hbody : ∀ i s, body i s = (chunk i s, step s)) :
    ∀ (n a : Nat) (s : σ),
      loopAcc body (List.range' a n) s =
        ((List.range n).flatMap fun j => chunk (a + j) (step^[j] s), step^[n] s) := by
  intro n
  induction n with
  | zero => intro a s; simp [loopAcc]
  | succ m ih =>
      intro a s
      have hr : List.range' a (m + 1) = a :: List.range' (a + 1) m := rfl
      rw [hr]
      show (let hd := body a s
            let tl := loopAcc body (List.range' (a + 1) m) hd.2
            (hd.1 ++ tl.1, tl.2)) = _
      rw [hbody a s]
      simp only []
      rw [ih (a + 1) (step s)]
      rw [List.range_succ_eq_map, List.flatMap_cons, List.flatMap_map]
      simp only [Nat.add_zero, Function.iterate_zero, id_eq]
      congr 1
      congr 1
      apply List.flatMap_congr
      intro j _
      rw [Function.iterate_succ_apply]
      congr 1
      omega

theorem iterate_pair_add (c : Nat) :
    ∀ (j : Nat) (st : Nat × Nat),
      (fun st : Nat × Nat => (st.1 + c, st.2 + c))^[j] st = (st.1 + j * c, st.2 + j * c) := by
  intro j
  induction j with
  | zero => intro st; simp
  | succ m ih =>
      intro st
      rw [Function.iterate_succ_apply, ih]
      simp only []
      have h1 : st.1 + c + m * c = st.1 + (m + 1) * c := by ring
      have h2 : st.2 + c + m * c = st.2 + (m + 1) * c := by ring
      rw [h1, h2]

theorem iterate_nat_add (c : Nat) :
    ∀ (j : Nat) (i : Nat), (fun x : Nat => x + c)^[j] i = i + j * c := by
  intro j
  induction j with
  | zero => intro i; simp
  | succ m ih =>
      intro i
      rw [Function.iterate_succ_apply, ih]
      ring

namespace GPUDatacenterTopology

/-- The `(cable, staged termination)` pair the spine↔leaf loop body appends
when the counters are `uplink_port = up` and `cable_idx = idx`. -/
def fabPairAt (t : GPUDatacenterTopology) (pod l s r up idx : Nat) : CSPair :=
  (⟨t.fabric_cable_type, t.fabric_cable_status, t.pfx ++ "-fab-" ++ padNat 6 idx, "00ff00"⟩,
   ⟨t.pfx ++ "-fab-" ++ padNat 6 idx,
    t.leafName pod l ++ ":eth" ++ natLit up,
    t.spineName pod s ++ ":eth" ++ natLit ((l * 2 + r) % t.spine_ports + 1)⟩)

/-- The `(cable, staged termination)` pair the leaf↔server loop body appends
when the counters are `downlink_port = down` and `cable_idx = idx`. -/
def srvPairAt (t : GPUDatacenterTopology) (pod l g nic down idx : Nat) : CSPair :=
  (⟨t.fabric_cable_type, t.fabric_cable_status, t.pfx ++ "-srv-" ++ padNat 6 idx, "0000ff"⟩,
   ⟨t.pfx ++ "-srv-" ++ padNat 6 idx,
    t.leafName pod l ++ ":eth" ++ natLit down,
    t.gpuName pod l g ++ ":eth" ++ natLit (nic + 1)⟩)

theorem fabRedBody_eq (t : GPUDatacenterTopology) (pod l s : Nat) :
    ∀ (r : Nat) (st : Nat × Nat),
      t.fabRedBody pod l s r st = ([t.fabPairAt pod l s r st.1 st.2], (st.1 + 1, st.2 + 1)) := by
  intro r st
  rfl

theorem srvNicBody_eq (t : GPUDatacenterTopology) (pod l g : Nat) :
    ∀ (nic : Nat) (st : Nat × Nat),
      t.srvNicBody pod l g nic st = ([t.srvPairAt pod l g nic st.1 st.2], (st.1 + 1, st.2 + 1)) := by
  intro nic st
  rfl

theorem fabSpineBody_char (t : GPUDatacenterTopology) (pod l : Nat) :
    ∀ (s : Nat) (st : Nat × Nat),
      t.fabSpineBody pod l s st =
        ((List.range 2).flatMap fun r => [t.fabPairAt pod l s r (st.1 + r) (st.2 + r)],
         (st.1 + 2, st.2 + 2)) := by
  intro s st
  rw [fabSpineBody, List.range_eq_range' 2,
    loopAcc_range' (t.fabRedBody pod l s)
      (fun r st => [t.fabPairAt pod l s r st.1 st.2])
      (fun st : Nat × Nat => (st.1 + 1, st.2 + 1))
      (fabRedBody_eq t pod l s) 2 0 st]
  rw [iterate_pair_add 1 2 st]
  simp [iterate_pair_add, ← List.range_eq_range']

theorem srvGpuBody_char (t : GPUDatacenterTopology) (pod l : Nat) :
    ∀ (g : Nat) (st : Nat × Nat),
      t.srvGpuBody pod l g st =
        ((List.range t.nics_per_gpu_server).flatMap fun nic =>
          [t.srvPairAt pod l g nic (st.1 + nic) (st.2 + nic)],
         (st.1 + t.nics_per_gpu_server, st.2 + t.nics_per_gpu_server)) := by
  intro g st
  rw [srvGpuBody, List.range_eq_range' t.nics_per_gpu_server,
    loopAcc_range' (t.srvNicBody pod l g)
      (fun nic st => [t.srvPairAt pod l g nic st.1 st.2])
      (fun st : Nat × Nat => (st.1 + 1, st.2 + 1))
      (srvNicBody_eq t pod l g) t.nics_per_gpu_server 0 st]
  rw [iterate_pair_add 1 t.nics_per_gpu_server st]
  simp [iterate_pair_add, ← List.range_eq_range']

/-- The per-leaf block of the spine↔leaf pass, starting at `cable_idx = idx`;
`uplink_port` starts at 1 and advances once per generated cable. -/
def fabLeafChunk (t : GPUDatacenterTopology) (pod l idx : Nat) : List CSPair :=
  (List.range t.spines_per_pod).flatMap fun s =>
    (List.range 2).flatMap fun r =>
      [t.fabPairAt pod l s r (1 + s * 2 + r) (idx + s * 2 + r)]

/-- The per-leaf block of the leaf↔server pass, starting at `cable_idx = idx`;
`downlink_port` starts at `leaf_uplinks + 1` and advances once per cable. -/
def srvLeafChunk (t : GPUDatacenterTopology) (pod l idx : Nat) : List CSPair :=
  (List.range t.gpu_servers_per_leaf).flatMap fun g =>
    (List.range t.nics_per_gpu_server).flatMap fun nic =>
      [t.srvPairAt pod l g nic (t.leaf_uplinks + 1 + g * t.nics_per_gpu_server + nic)
        (idx + g * t.nics_per_gpu_server + nic)]

theorem fabLeafBody_char (t : GPUDatacenterTopology) (pod : Nat) :
    ∀ (l idx : Nat),
      t.fabLeafBody pod l idx = (t.fabLeafChunk pod l idx, idx + t.spines_per_pod * 2) := by
  intro l idx
  rw [fabLeafBody, List.range_eq_range' t.spines_per_pod,
    loopAcc_range' (t.fabSpineBody pod l)
      (fun s st => (List.range 2).flatMap fun r => [t.fabPairAt pod l s r (st.1 + r) (st.2 + r)])
      (fun st : Nat × Nat => (st.1 + 2, st.2 + 2))
      (fabSpineBody_char t pod l) t.spines_per_pod 0 (1, idx)]
  rw [fabLeafChunk]
  simp [iterate_pair_add, ← List.range_eq_range']

theorem srvLeafBody_char (t : GPUDatacenterTopology) (pod : Nat) :
    ∀ (l idx : Nat),
      t.srvLeafBody pod l idx =
        (t.srvLeafChunk pod l idx,
         idx + t.gpu_servers_per_leaf * t.nics_per_gpu_server) := by
  intro l idx
  rw [srvLeafBody, List.range_eq_range' t.gpu_servers_per_leaf,
    loopAcc_range' (t.srvGpuBody pod l)
      (fun g st => (List.range t.nics_per_gpu_server).flatMap fun nic =>
        [t.srvPairAt pod l g nic (st.1 + nic) (st.2 + nic)])
      (fun st : Nat × Nat => (st.1 + t.nics_per_gpu_server, st.2 + t.nics_per_gpu_server))
      (srvGpuBody_char t pod l) t.gpu_servers_per_leaf 0 (t.leaf_uplinks + 1, idx)]
  rw [srvLeafChunk]
  simp [iterate_pair_add, ← List.range_eq_range']

/-- Number of cables generated by the spine-to-leaf pass. -/
def fabCableCount (t : GPUDatacenterTopology) : Nat :=
  t.pods * (t.leaves_per_pod * (t.spines_per_pod * 2))

/-- Number of cables generated by the leaf-to-server pass. -/
def srvCableCount (t : GPUDatacenterTopology) : Nat :=
  t.pods * (t.leaves_per_pod * (t.gpu_servers_per_leaf * t.nics_per_gpu_server))

theorem fabPodBody_char (t : GPUDatacenterTopology) :
    ∀ (pod idx : Nat),
      t.fabPodBody pod idx =
        ((List.range t.leaves_per_pod).flatMap fun l =>
          t.fabLeafChunk pod l (idx + l * (t.spines_per_pod * 2)),
         idx + t.leaves_per_pod * (t.spines_per_pod * 2)) := by
  intro pod idx
  rw [fabPodBody, List.range_eq_range' t.leaves_per_pod,
    loopAcc_range' (t.fabLeafBody pod)
      (fun l idx => t.fabLeafChunk pod l idx)
      (fun idx : Nat => idx + t.spines_per_pod * 2)
      (fabLeafBody_char t pod) t.leaves_per_pod 0 idx]
  simp [iterate_nat_add, ← List.range_eq_range']

theorem srvPodBody_char (t : GPUDatacenterTopology) :
    ∀ (pod idx : Nat),
      t.srvPodBody pod idx =
        ((List.range t.leaves_per_pod).flatMap fun l =>
          t.srvLeafChunk pod l (idx + l * (t.gpu_servers_per_leaf * t.nics_per_gpu_server)),
         idx + t.leaves_per_pod * (t.gpu_servers_per_leaf * t.nics_per_gpu_server)) := by
  intro pod idx
  rw [srvPodBody, List.range_eq_range' t.leaves_per_pod,
    loopAcc_range' (t.srvLeafBody pod)
      (fun l idx => t.srvLeafChunk pod l idx)
      (fun idx : Nat => idx + t.gpu_servers_per_leaf * t.nics_per_gpu_server)
      (srvLeafBody_char t pod) t.leaves_per_pod 0 idx]
  simp [iterate_nat_add, ← List.range_eq_range']

/-- Closed form of the spine-to-leaf pass records. -/
def fabClosedPairs (t : GPUDatacenterTopology) : List CSPair :=
  (List.range t.pods).flatMap fun pod =>
    (List.range t.leaves_per_pod).flatMap fun l =>
      t.fabLeafChunk pod l
        (pod * (t.leaves_per_pod * (t.spines_per_pod * 2)) + l * (t.spines_per_pod * 2))

/-- Closed form of the leaf-to-server pass records, with starting
`cable_idx = idx0`. -/
def srvClosedPairs (t : GPUDatacenterTopology) (idx0 : Nat) : List CSPair :=
  (List.range t.pods).flatMap fun pod =>
    (List.range t.leaves_per_pod).flatMap fun l =>
      t.srvLeafChunk pod l
        (idx0 + pod * (t.leaves_per_pod * (t.gpu_servers_per_leaf * t.nics_per_gpu_server))
          + l * (t.gpu_servers_per_leaf * t.nics_per_gpu_server))

theorem fabPass_char (t : GPUDatacenterTopology) :
    t.fabPass = (t.fabClosedPairs, t.fabCableCount) := by
  rw [fabPass, List.range_eq_range' t.pods,
    loopAcc_range' t.fabPodBody
      (fun pod idx => (List.range t.leaves_per_pod).flatMap fun l =>
        t.fabLeafChunk pod l (idx + l * (t.spines_per_pod * 2)))
      (fun idx : Nat => idx + t.leaves_per_pod * (t.spines_per_pod * 2))
      (fabPodBody_char t) t.pods 0 0]
  rw [fabClosedPairs, fabCableCount]
  simp only [iterate_nat_add, ← List.range_eq_range', Nat.zero_add, Prod.mk.injEq]

theorem srvPass_char (t : GPUDatacenterTopology) (idx0 : Nat) :
    t.srvPass idx0 = (t.srvClosedPairs idx0, idx0 + t.srvCableCount) := by
  rw [srvPass, List.range_eq_range' t.pods,
    loopAcc_range' t.srvPodBody
      (fun pod idx => (List.range t.leaves_per_pod).flatMap fun l =>
        t.srvLeafChunk pod l (idx + l * (t.gpu_servers_per_leaf * t.nics_per_gpu_server)))
      (fun idx : Nat => idx + t.leaves_per_pod * (t.gpu_servers_per_leaf * t.nics_per_gpu_server))
      (srvPodBody_char t) t.pods 0 idx0]
  rw [srvClosedPairs, srvCableCount]
  simp only [iterate_nat_add, ← List.range_eq_range', Prod.mk.injEq]
  constructor
  · apply List.flatMap_congr
    intro pod _
    apply List.flatMap_congr
    intro l _
    congr 1
    ring
  · ring

/-- `cablePairs` in closed form. -/
theorem cablePairs_char (t : GPUDatacenterTopology) :
    t.cablePairs = t.fabClosedPairs ++ t.srvClosedPairs t.fabCableCount := by
  rw [cablePairs, fabPass_char, srvPass_char]

end GPUDatacenterTopology

/-! ## Termination records (`generate_cables` lines 387–418) -/

/-- The `terminations` column family built by the final loop of
`generate_cables`: five parallel lists (`cable_id`, `cable_end`,
`termination_type_id`, `termination_id`, `_label`), appended in lockstep. -/
structure TermData where
  cable_id : List Nat
  cable_end : List String
  termination_type_id : List Nat
  termination_id : List Nat
  _label : List String
deriving DecidableEq, Repr

/-- The empty `terminations` dict. -/
def emptyTermData : TermData := ⟨[], [], [], [], []⟩

/-- The loop `for label, a_key, b_key in termination_staging` of
`generate_cables`: look both endpoint keys up in `interface_map`, skip the
staged entry entirely if either is missing, otherwise append the A-side row
and then the B-side row (`cable_id` is the placeholder 0). -/
def buildTerminations (interface_map : String → Option Nat) (ict : Nat) :
    List StagedTermination → TermData
  | [] => emptyTermData
  | e :: rest =>
      let td := buildTerminations interface_map ict rest
      match interface_map e.a_key, interface_map e.b_key with
      | some a_id, some b_id =>
          ⟨0 :: 0 :: td.cable_id,
           "A" :: "B" :: td.cable_end,
           ict :: ict :: td.termination_type_id,
           a_id :: b_id :: td.termination_id,
           e.label :: e.label :: td._label⟩
      | _, _ => td

namespace GPUDatacenterTopology

/-- `generate_cables(interface_map, interface_content_type_id)`: the cable
records together with the termination records resolved through
`interface_map`. -/
def generate_cables (t : GPUDatacenterTopology) (interface_map : String → Option Nat)
    (interface_content_type_id : Nat) : List Cable × TermData :=
  (t.cablesList, buildTerminations interface_map interface_content_type_id t.staging)

end GPUDatacenterTopology

/-! ## Cable counting (claim C1) -/

theorem flatMap_const_length {α : Type} (n c : Nat) (f : Nat → List α)
    (h : ∀ j, (f j).length = c) : ((List.range n).flatMap f).length = n * c := by
  induction n with
  | zero => simp
  | succ k ih =>
      rw [List.range_succ, List.flatMap_append, List.length_append, ih]
      simp [h k]
      ring

namespace GPUDatacenterTopology

theorem fabLeafChunk_length (t : GPUDatacenterTopology) (pod l idx : Nat) :
    (t.fabLeafChunk pod l idx).length = t.spines_per_pod * 2 := by
  rw [fabLeafChunk]
  apply flatMap_const_length
  intro s
  have := flatMap_const_length 2 1
    (fun r => [t.fabPairAt pod l s r (1 + s * 2 + r) (idx + s * 2 + r)]) (fun _ => rfl)
  simpa using this

theorem srvLeafChunk_length (t : GPUDatacenterTopology) (pod l idx : Nat) :
    (t.srvLeafChunk pod l idx).length =
      t.gpu_servers_per_leaf * t.nics_per_gpu_server := by
  rw [srvLeafChunk]
  have h1 : ∀ g : Nat,
      ((List.range t.nics_per_gpu_server).flatMap fun nic =>
        [t.srvPairAt pod l g nic (t.leaf_uplinks + 1 + g * t.nics_per_gpu_server + nic)
          (idx + g * t.nics_per_gpu_server + nic)]).length = t.nics_per_gpu_server := by
    intro g
    have := flatMap_const_length t.nics_per_gpu_server 1
      (fun nic => [t.srvPairAt pod l g nic (t.leaf_uplinks + 1 + g * t.nics_per_gpu_server + nic)
        (idx + g * t.nics_per_gpu_server + nic)]) (fun _ => rfl)
    simpa using this
  exact flatMap_const_length t.gpu_servers_per_leaf t.nics_per_gpu_server _ h1

theorem fabClosedPairs_length (t : GPUDatacenterTopology) :
    t.fabClosedPairs.length = t.fabCableCount := by
  rw [fabClosedPairs, fabCableCount]
  apply flatMap_const_length
  intro pod
  apply flatMap_const_length
  intro l
  exact t.fabLeafChunk_length pod l _

theorem srvClosedPairs_length (t : GPUDatacenterTopology) (idx0 : Nat) :
    (t.srvClosedPairs idx0).length = t.srvCableCount := by
  rw [srvClosedPairs, srvCableCount]
  apply flatMap_const_length
  intro pod
  apply flatMap_const_length
  intro l
  exact t.srvLeafChunk_length pod l _

theorem cablePairs_length (t : GPUDatacenterTopology) :
    t.cablePairs.length = t.fabCableCount + t.srvCableCount := by
  rw [cablePairs_char, List.length_append, fabClosedPairs_length, srvClosedPairs_length]

end GPUDatacenterTopology

/-- **C1.** For every `TopologySpec` (in particular every valid one), the
estimated cable count `total_leaves × leaf_uplinks + total_servers ×
nics_per_server` computed by `estimated_cables` equals the number of cable
records actually produced by the cable-generation pass `generate_cables`,
whatever interface map and content-type id are supplied. -/
theorem C1_estimated_cables_eq_generated (t : GPUDatacenterTopology)
    (interface_map : String → Option Nat) (interface_content_type_id : Nat) :
    t.estimated_cables = (t.generate_cables interface_map interface_content_type_id).1.length := by
  rw [GPUDatacenterTopology.generate_cables]
  show t.estimated_cables = t.cablesList.length
  rw [GPUDatacenterTopology.cablesList, List.length_map,
    GPUDatacenterTopology.cablePairs_length, GPUDatacenterTopology.estimated_cables,
    GPUDatacenterTopology.total_leaves, GPUDatacenterTopology.leaf_uplinks,
    GPUDatacenterTopology.total_gpu_servers, GPUDatacenterTopology.fabCableCount,
    GPUDatacenterTopology.srvCableCount, GPUDatacenterTopology.total_leaves]
  ring

/-! ## The spine↔leaf port-allocation rule (claim C2) -/

theorem range_mul_rank {α : Type} (a b : Nat) (f : Nat → α) :
    ((List.range a).flatMap fun i => (List.range b).map fun j => f (i * b + j)) =
      (List.range (a * b)).map f := by
  induction a with
  | zero => simp
  | succ k ih =>
      rw [List.range_succ, List.flatMap_append, ih]
      have hr : (k + 1) * b = k * b + b := by ring
      rw [hr, List.range_add, List.map_append, List.map_map]
      simp [List.flatMap_cons]

namespace GPUDatacenterTopology

/-- Spec-side description of the spine↔leaf cabling pass (§4.3 of the spec):
for each `(pod, leaf)` the `leaf_uplinks` local ports are taken sequentially
from `eth1` (`s * 2 + r + 1` for spine `s`, redundancy `r`), each spine gets
2 redundant links, and the spine-side port is
`(leaf_index * 2 + redundancy_index) mod spine_port_count + 1`. -/
def fabSpineLeafSpec (t : GPUDatacenterTopology) : List StagedTermination :=
  (List.range t.pods).flatMap fun pod =>
    (List.range t.leaves_per_pod).flatMap fun l =>
      (List.range t.spines_per_pod).flatMap fun s =>
        (List.range 2).map fun r =>
          ⟨t.pfx ++ "-fab-" ++
             padNat 6 (((pod * t.leaves_per_pod + l) * t.spines_per_pod + s) * 2 + r),
           t.leafName pod l ++ ":eth" ++ natLit (s * 2 + r + 1),
           t.spineName pod s ++ ":eth" ++ natLit ((l * 2 + r) % t.spine_ports + 1)⟩

end GPUDatacenterTopology

/-- **C2.** The spine↔leaf cabling pass allocates, for each `(pod, leaf)`
pair, sequential leaf-local ports starting at `eth1` (`s * 2 + r + 1`, which
ranges exactly over `1 … leaf_uplinks` — second conjunct), gives each spine
of the pod exactly 2 redundant links (`r < 2`), and picks spine-side port
`(l * 2 + r) % spine_port_count + 1` for leaf index `l` and redundancy index
`r`: the staged terminations of the pass are exactly `fabSpineLeafSpec`. -/
theorem C2_spine_leaf_port_allocation (t : GPUDatacenterTopology) :
    (t.fabPass).1.map Prod.snd = t.fabSpineLeafSpec ∧
      ((List.range t.spines_per_pod).flatMap fun s =>
        (List.range 2).map fun r => s * 2 + r + 1) =
        (List.range t.leaf_uplinks).map fun p => p + 1 := by
  constructor
  · rw [GPUDatacenterTopology.fabPass_char]
    show t.fabClosedPairs.map Prod.snd = _
    rw [GPUDatacenterTopology.fabClosedPairs, GPUDatacenterTopology.fabSpineLeafSpec]
    simp only [List.map_flatMap, GPUDatacenterTopology.fabLeafChunk]
    apply List.flatMap_congr
    intro pod _
    apply List.flatMap_congr
    intro l _
    apply List.flatMap_congr
    intro s _
    rw [List.map_eq_flatMap]
    apply List.flatMap_congr
    intro r _
    simp only [List.map_cons, List.map_nil, GPUDatacenterTopology.fabPairAt]
    have h1 : pod * (t.leaves_per_pod * (t.spines_per_pod * 2)) + l * (t.spines_per_pod * 2)
        + s * 2 + r = ((pod * t.leaves_per_pod + l) * t.spines_per_pod + s) * 2 + r := by
      ring
    have h2 : 1 + s * 2 + r = s * 2 + r + 1 := by omega
    rw [h1, h2]
  · have := range_mul_rank t.spines_per_pod 2 (fun x => x + 1)
    rw [GPUDatacenterTopology.leaf_uplinks]
    exact this

/-! ## Cable labels: closed form and uniqueness -/

theorem range_offset_rank {α : Type} (b c A : Nat) (f : Nat → α) :
    ((List.range b).flatMap fun j => (List.range c).map fun k => f (A + j * c + k)) =
      (List.range (b * c)).map fun y => f (A + y) := by
  have h := range_mul_rank b c (fun y => f (A + y))
  rw [← h]
  apply List.flatMap_congr
  intro j _
  apply List.map_congr_left
  intro k _
  congr 1
  ring

theorem range_rank4 {α : Type} (a b c d : Nat) (f : Nat → α) :
    ((List.range a).flatMap fun i => (List.range b).flatMap fun j =>
      (List.range c).flatMap fun k => (List.range d).map fun r =>
        f (i * (b * (c * d)) + j * (c * d) + k * d + r))
      = (List.range (a * (b * (c * d)))).map f := by
  have step1 : ∀ i : Nat,
      ((List.range b).flatMap fun j => (List.range c).flatMap fun k =>
        (List.range d).map fun r => f (i * (b * (c * d)) + j * (c * d) + k * d + r))
        = (List.range (b * (c * d))).map fun y => f (i * (b * (c * d)) + y) := by
    intro i
    have inner : ∀ j : Nat,
        ((List.range c).flatMap fun k => (List.range d).map fun r =>
          f (i * (b * (c * d)) + j * (c * d) + k * d + r))
          = (List.range (c * d)).map fun y => f (i * (b * (c * d)) + j * (c * d) + y) :=
      fun j => range_offset_rank c d (i * (b * (c * d)) + j * (c * d)) f
    rw [List.flatMap_congr fun j _ => inner j]
    exact range_offset_rank b (c * d) (i * (b * (c * d))) f
  rw [List.flatMap_congr fun i _ => step1 i]
  exact range_mul_rank a (b * (c * d)) f

theorem range_rank4_offset {α : Type} (A a b c d : Nat) (f : Nat → α) :
    ((List.range a).flatMap fun i => (List.range b).flatMap fun j =>
      (List.range c).flatMap fun k => (List.range d).map fun r =>
        f (A + i * (b * (c * d)) + j * (c * d) + k * d + r))
      = (List.range (a * (b * (c * d)))).map fun y => f (A + y) := by
  have h := range_rank4 a b c d (fun y => f (A + y))
  rw [← h]
  apply List.flatMap_congr
  intro i _
  apply List.flatMap_congr
  intro j _
  apply List.flatMap_congr
  intro k _
  apply List.map_congr_left
  intro r _
  congr 1
  ring

namespace GPUDatacenterTopology

/-- Label `f'{prefix}-fab-{cable_idx:06d}'` of a spine↔leaf cable. -/
def fabLabel (t : GPUDatacenterTopology) (i : Nat) : String :=
  t.pfx ++ "-fab-" ++ padNat 6 i

/-- Label `f'{prefix}-srv-{cable_idx:06d}'` of a leaf↔server cable. -/
def srvLabel (t : GPUDatacenterTopology) (i : Nat) : String :=
  t.pfx ++ "-srv-" ++ padNat 6 i

theorem fab_labels_closed (t : GPUDatacenterTopology) :
    t.fabClosedPairs.map (fun p : CSPair => p.2.label) =
      (List.range t.fabCableCount).map t.fabLabel := by
  rw [fabClosedPairs, fabCableCount]
  simp only [List.map_flatMap, fabLeafChunk, fabPairAt, List.map_cons, List.map_nil,
    ← List.map_eq_flatMap]
  exact range_rank4 t.pods t.leaves_per_pod t.spines_per_pod 2 t.fabLabel

theorem srv_labels_closed (t : GPUDatacenterTopology) (idx0 : Nat) :
    (t.srvClosedPairs idx0).map (fun p : CSPair => p.2.label) =
      (List.range t.srvCableCount).map fun y => t.srvLabel (idx0 + y) := by
  rw [srvClosedPairs, srvCableCount]
  simp only [List.map_flatMap, srvLeafChunk, srvPairAt, List.map_cons, List.map_nil,
    List.map_map, Function.comp_def, ← List.map_eq_flatMap]
  exact range_rank4_offset idx0 t.pods t.leaves_per_pod t.gpu_servers_per_leaf
    t.nics_per_gpu_server (fun y => t.srvLabel y)

/-- The staged labels in closed form: the consecutive spine↔leaf labels
followed by the consecutive leaf↔server labels. -/
theorem staging_labels (t : GPUDatacenterTopology) :
    t.staging.map StagedTermination.label =
      (List.range t.fabCableCount).map t.fabLabel ++
        (List.range t.srvCableCount).map fun y => t.srvLabel (t.fabCableCount + y) := by
  rw [staging, cablePairs_char, List.map_append, List.map_append, List.map_map,
    List.map_map]
  rw [show (StagedTermination.label ∘ Prod.snd) = fun p : CSPair => p.2.label from rfl]
  rw [fab_labels_closed, srv_labels_closed]

theorem fabLabel_injective (t : GPUDatacenterTopology) : Function.Injective t.fabLabel := by
  intro a b h
  have hd := congrArg String.data h
  simp only [fabLabel, string_data_append, List.append_assoc] at hd
  have := List.append_cancel_left (List.append_cancel_left hd)
  exact padNat_injective 6 (string_eq_of_data _ _ this)

theorem srvLabel_injective (t : GPUDatacenterTopology) : Function.Injective t.srvLabel := by
  intro a b h
  have hd := congrArg String.data h
  simp only [srvLabel, string_data_append, List.append_assoc] at hd
  have := List.append_cancel_left (List.append_cancel_left hd)
  exact padNat_injective 6 (string_eq_of_data _ _ this)

theorem fabLabel_ne_srvLabel (t : GPUDatacenterTopology) (i j : Nat) :
    t.fabLabel i ≠ t.srvLabel j := by
  intro h
  have hd := congrArg String.data h
  simp only [fabLabel, srvLabel, string_data_append, List.append_assoc] at hd
  have h2 := List.append_cancel_left hd
  simp only [List.cons_append, List.cons.injEq] at h2
  exact absurd h2.2.1 (by decide)

/-- The labels of a generation run are pairwise distinct. -/
theorem staging_labels_nodup (t : GPUDatacenterTopology) :
    (t.staging.map StagedTermination.label).Nodup := by
  rw [staging_labels]
  apply List.Nodup.append
  · exact (List.nodup_range _).map (fabLabel_injective t)
  · apply (List.nodup_range _).map
    intro a b h
    have := srvLabel_injective t h
    omega
  · intro x hx hy
    obtain ⟨i, _, rfl⟩ := List.mem_map.1 hx
    obtain ⟨j, _, hj⟩ := List.mem_map.1 hy
    exact fabLabel_ne_srvLabel t i (t.fabCableCount + j) hj.symm

end GPUDatacenterTopology

/-! ## Row view of the termination columns -/

/-- One termination record, i.e. one synchronized position of the five
parallel `TermData` columns. -/
structure TRow where
  cable_id : Nat
  cable_end : String
  termination_type_id : Nat
  termination_id : Nat
  _label : String
deriving DecidableEq, Repr

/-- Zip the five parallel columns into rows. -/
def zipRows : List Nat → List String → List Nat → List Nat → List String → List TRow
  | a :: as, b :: bs, c :: cs, d :: ds, e :: es => ⟨a, b, c, d, e⟩ :: zipRows as bs cs ds es
  | _, _, _, _, _ => []

/-- The rows of a `TermData` column family. -/
def termRows (d : TermData) : List TRow :=
  zipRows d.cable_id d.cable_end d.termination_type_id d.termination_id d._label

/-- The rows one staged entry contributes: the A-side and B-side rows when
both endpoints resolve through `interface_map`, nothing otherwise. -/
def stagedRowsChunk (interface_map : String → Option Nat) (ict : Nat)
    (e : StagedTermination) : List TRow :=
  match interface_map e.a_key, interface_map e.b_key with
  | some a_id, some b_id => [⟨0, "A", ict, a_id, e.label⟩, ⟨0, "B", ict, b_id, e.label⟩]
  | _, _ => []

theorem termRows_buildTerminations (interface_map : String → Option Nat) (ict : Nat) :
    ∀ L : List StagedTermination,
      termRows (buildTerminations interface_map ict L) =
        L.flatMap (stagedRowsChunk interface_map ict) := by
  intro L
  induction L with
  | nil => rfl
  | cons e rest ih =>
      cases hma : interface_map e.a_key <;> cases hmb : interface_map e.b_key <;>
        simp [buildTerminations, stagedRowsChunk, hma, hmb, termRows, zipRows, ← ih]

/-- Filtering a label-keyed flat-mapped list by the label of one of the keys
returns exactly that key's chunk, provided labels are pairwise distinct. -/
theorem flatMap_filter_label {α β : Type} (lab : α → String) (labr : β → String)
    (f : α → List β) :
    ∀ (L : List α), (∀ a ∈ L, ∀ b ∈ f a, labr b = lab a) → (L.map lab).Nodup →
      ∀ a ∈ L, (L.flatMap f).filter (fun b => labr b == lab a) = f a := by
  intro L
  induction L with
  | nil => intro _ _ a ha; exact absurd ha (List.not_mem_nil a)
  | cons x xs ih =>
      intro hrows hnd a ha
      have hndx : lab x ∉ xs.map lab := by
        rw [List.map_cons] at hnd
        exact (List.nodup_cons.mp hnd).1
      have hndxs : (xs.map lab).Nodup := by
        rw [List.map_cons] at hnd
        exact (List.nodup_cons.mp hnd).2
      rw [List.flatMap_cons, List.filter_append]
      rcases List.mem_cons.mp ha with rfl | hmem
      · have h1 : (f a).filter (fun b => labr b == lab a) = f a := by
          apply List.filter_eq_self.mpr
          intro b hb
          rw [hrows a (List.mem_cons_self a xs) b hb]
          exact beq_self_eq_true (lab a)
        have h2 : (xs.flatMap f).filter (fun b => labr b == lab a) = [] := by
          apply List.filter_eq_nil_iff.mpr
          intro b hb
          obtain ⟨a', ha', hb'⟩ := List.mem_flatMap.mp hb
          rw [hrows a' (List.mem_cons_of_mem a ha') b hb']
          intro hcontra
          apply hndx
          rw [← beq_iff_eq.mp hcontra]
          exact List.mem_map_of_mem lab ha'
        rw [h1, h2, List.append_nil]
      · have h1 : (f x).filter (fun b => labr b == lab a) = [] := by
          apply List.filter_eq_nil_iff.mpr
          intro b hb
          rw [hrows x (List.mem_cons_self x xs) b hb]
          intro hcontra
          apply hndx
          rw [beq_iff_eq.mp hcontra]
          exact List.mem_map_of_mem lab hmem
        rw [h1, List.nil_append]
        exact ih (fun a' ha' => hrows a' (List.mem_cons_of_mem x ha')) hndxs a hmem

/-! ## Distinctness of the two endpoints of every staged cable -/

theorem key_ne_helper (P : List Char) (c₁ c₂ : Char) (hne : c₁ ≠ c₂) (x y : List Char)
    (h : P ++ '-' :: c₁ :: x = P ++ '-' :: c₂ :: y) : False := by
  have h2 := List.append_cancel_left h
  simp only [List.cons.injEq] at h2
  exact hne h2.2.1

namespace GPUDatacenterTopology

theorem leaf_key_ne_spine_key (t : GPUDatacenterTopology) (pod l pod2 s : Nat)
    (u v : String) :
    t.leafName pod l ++ ":eth" ++ u ≠ t.spineName pod2 s ++ ":eth" ++ v := by
  intro h
  have hd := congrArg String.data h
  simp only [leafName, spineName, string_data_append, List.append_assoc,
    List.cons_append] at hd
  exact key_ne_helper t.pfx.data 'l' 's' (by decide) _ _ hd

theorem leaf_key_ne_gpu_key (t : GPUDatacenterTopology) (pod l pod2 l2 g : Nat)
    (u v : String) :
    t.leafName pod l ++ ":eth" ++ u ≠ t.gpuName pod2 l2 g ++ ":eth" ++ v := by
  intro h
  have hd := congrArg String.data h
  simp only [leafName, gpuName, string_data_append, List.append_assoc,
    List.cons_append] at hd
  exact key_ne_helper t.pfx.data 'l' 'g' (by decide) _ _ hd

/-- In every staged termination entry the two endpoint keys are distinct
interface keys (a leaf port on one side, a spine or GPU-server port on the
other). -/
theorem staging_a_key_ne_b_key (t : GPUDatacenterTopology) :
    ∀ e ∈ t.staging, e.a_key ≠ e.b_key := by
  intro e he
  rw [staging, cablePairs_char] at he
  obtain ⟨p, hp, rfl⟩ := List.mem_map.mp he
  rcases List.mem_append.mp hp with hf | hs
  · simp only [fabClosedPairs, fabLeafChunk, List.mem_flatMap, List.mem_singleton] at hf
    obtain ⟨pod, _, l, _, s, _, r, _, rfl⟩ := hf
    exact t.leaf_key_ne_spine_key pod l pod s _ _
  · simp only [srvClosedPairs, srvLeafChunk, List.mem_flatMap, List.mem_singleton] at hs
    obtain ⟨pod, _, l, _, g, _, nic, _, rfl⟩ := hs
    exact t.leaf_key_ne_gpu_key pod l pod l g _ _

/-- Each loop iteration gives the cable record and its staged termination
entry the same label. -/
theorem cablePairs_label_eq (t : GPUDatacenterTopology) :
    ∀ p ∈ t.cablePairs, p.1.label = p.2.label := by
  intro p hp
  rw [cablePairs_char] at hp
  rcases List.mem_append.mp hp with hf | hs
  · simp only [fabClosedPairs, fabLeafChunk, List.mem_flatMap, List.mem_singleton] at hf
    obtain ⟨pod, _, l, _, s, _, r, _, rfl⟩ := hf
    rfl
  · simp only [srvClosedPairs, srvLeafChunk, List.mem_flatMap, List.mem_singleton] at hs
    obtain ⟨pod, _, l, _, g, _, nic, _, rfl⟩ := hs
    rfl

/-- Every cable of a generation run corresponds to a staged entry carrying
the same label, and filtering the termination rows by that label yields
exactly the rows contributed by that entry. -/
theorem rows_for_cable (t : GPUDatacenterTopology) (interface_map : String → Option Nat)
    (ict : Nat) (c : Cable) (hc : c ∈ (t.generate_cables interface_map ict).1) :
    ∃ e ∈ t.staging, e.label = c.label ∧ e.a_key ≠ e.b_key ∧
      (termRows (t.generate_cables interface_map ict).2).filter
        (fun r => r._label == c.label) = stagedRowsChunk interface_map ict e := by
  have hc' : c ∈ t.cablePairs.map Prod.fst := hc
  obtain ⟨p, hp, hpc⟩ := List.mem_map.mp hc'
  have he : p.2 ∈ t.staging := List.mem_map_of_mem Prod.snd hp
  have hlab : p.2.label = c.label := by
    rw [← hpc]
    exact (t.cablePairs_label_eq p hp).symm
  refine ⟨p.2, he, hlab, t.staging_a_key_ne_b_key p.2 he, ?_⟩
  have hrows : termRows (t.generate_cables interface_map ict).2 =
      t.staging.flatMap (stagedRowsChunk interface_map ict) :=
    termRows_buildTerminations interface_map ict t.staging
  rw [hrows, ← hlab]
  exact flatMap_filter_label StagedTermination.label TRow._label
    (stagedRowsChunk interface_map ict) t.staging
    (by
      intro a _ b hb
      rw [stagedRowsChunk] at hb
      rcases hma : interface_map a.a_key with _ | a_id <;>
        rcases hmb : interface_map a.b_key with _ | b_id <;>
        rw [hma, hmb] at hb <;> simp at hb
      rcases hb with rfl | rfl <;> rfl)
    t.staging_labels_nodup p.2 he

end GPUDatacenterTopology

/-! ## Claims C6 and C10: termination pairing invariants -/

/-- **C6.** For every `TopologySpec` and every injective interface map that
covers (resolves) all interface keys generated into the staging by the cable
pass, each generated cable has exactly two termination rows — the rows whose
`_label` equals the cable's label are exactly one A-end row and one B-end
row, in that order — and the two rows reference distinct interfaces. -/
theorem C6_cable_two_terminations (t : GPUDatacenterTopology)
    (interface_map : String → Option Nat) (interface_content_type_id : Nat)
    (hcov : ∀ e ∈ t.staging,
      (interface_map e.a_key).isSome ∧ (interface_map e.b_key).isSome)
    (hinj : ∀ x y i, interface_map x = some i → interface_map y = some i → x = y)
    (c : Cable) (hc : c ∈ (t.generate_cables interface_map interface_content_type_id).1) :
    ∃ a_id b_id : Nat, a_id ≠ b_id ∧
      (termRows (t.generate_cables interface_map interface_content_type_id).2).filter
          (fun r => r._label == c.label) =
        [⟨0, "A", interface_content_type_id, a_id, c.label⟩,
         ⟨0, "B", interface_content_type_id, b_id, c.label⟩] := by
  obtain ⟨e, he, hlab, hne, hfilter⟩ :=
    t.rows_for_cable interface_map interface_content_type_id c hc
  obtain ⟨a_id, ha⟩ := Option.isSome_iff_exists.mp (hcov e he).1
  obtain ⟨b_id, hb⟩ := Option.isSome_iff_exists.mp (hcov e he).2
  refine ⟨a_id, b_id, ?_, ?_⟩
  · intro hcontra
    subst hcontra
    exact hne (hinj e.a_key e.b_key a_id ha hb)
  · rw [hfilter]
    simp [stagedRowsChunk, ha, hb, hlab]

/-- **C10.** For every interface map — including one missing some of the
generated endpoint keys — the termination pass drops rows in whole cable
pairs: every generated cable either has no termination rows at all or
exactly its A-end row followed by its B-end row; a single-ended cable never
occurs. -/
theorem C10_whole_pair_drop (t : GPUDatacenterTopology)
    (interface_map : String → Option Nat) (interface_content_type_id : Nat)
    (c : Cable) (hc : c ∈ (t.generate_cables interface_map interface_content_type_id).1) :
    (termRows (t.generate_cables interface_map interface_content_type_id).2).filter
        (fun r => r._label == c.label) = [] ∨
      ∃ a_id b_id : Nat,
        (termRows (t.generate_cables interface_map interface_content_type_id).2).filter
            (fun r => r._label == c.label) =
          [⟨0, "A", interface_content_type_id, a_id, c.label⟩,
           ⟨0, "B", interface_content_type_id, b_id, c.label⟩] := by
  obtain ⟨e, he, hlab, hne, hfilter⟩ :=
    t.rows_for_cable interface_map interface_content_type_id c hc
  rcases hma : interface_map e.a_key with _ | a_id
  · left
    rw [hfilter]
    simp [stagedRowsChunk, hma]
  · rcases hmb : interface_map e.b_key with _ | b_id
    · left
      rw [hfilter]
      simp [stagedRowsChunk, hma, hmb]
    · right
      refine ⟨a_id, b_id, ?_⟩
      rw [hfilter]
      simp [stagedRowsChunk, hma, hmb, hlab]

/-- A concrete 1-pod, 1-spine, 1-leaf, 1-server, 1-NIC topology used as the
witness input (3 cables: two fabric, one server). -/
def exTopology : GPUDatacenterTopology :=
  { pods := 1, spines_per_pod := 1, leaves_per_pod := 1, gpu_servers_per_leaf := 1,
    nics_per_gpu_server := 1, spine_ports := 4, leaf_ports := 4, pfx := "p" }

/-- A total interface map for `exTopology` covering all six staged keys. -/
def exMap : String → Option Nat := fun k =>
  if k = "p-leaf-p00-r00:eth1" then some 1
  else if k = "p-leaf-p00-r00:eth2" then some 2
  else if k = "p-leaf-p00-r00:eth3" then some 3
  else if k = "p-spine-p00-s00:eth1" then some 4
  else if k = "p-spine-p00-s00:eth2" then some 5
  else if k = "p-gpu-p00-r00-u00:eth1" then some 6
  else none

theorem exMap_injective : ∀ x y i, exMap x = some i → exMap y = some i → x = y := by
  intro x y i hx hy
  unfold exMap at hx hy
  split_ifs at hx hy <;> simp_all <;> omega

theorem C6_cable_two_terminations_witness :
    ∃ a_id b_id : Nat, a_id ≠ b_id ∧
      (termRows (exTopology.generate_cables exMap 9).2).filter
          (fun r => r._label == ("p-fab-000000" : String)) =
        [⟨0, "A", 9, a_id, "p-fab-000000"⟩, ⟨0, "B", 9, b_id, "p-fab-000000"⟩] :=
  C6_cable_two_terminations exTopology exMap 9 (by decide) exMap_injective
    ⟨"mmf-om4", "connected", "p-fab-000000", "00ff00"⟩ (by decide)

/-- The interface map of `exTopology` with the GPU-server endpoint missing:
the server cable's A-side leaf endpoint would resolve, but the whole pair is
dropped. -/
def exMapPartial : String → Option Nat := fun k =>
  if k = "p-gpu-p00-r00-u00:eth1" then none else exMap k

theorem C10_whole_pair_drop_witness :
    (termRows (exTopology.generate_cables exMapPartial 9).2).filter
        (fun r => r._label == ("p-srv-000002" : String)) = [] ∨
      ∃ a_id b_id : Nat,
        (termRows (exTopology.generate_cables exMapPartial 9).2).filter
            (fun r => r._label == ("p-srv-000002" : String)) =
          [⟨0, "A", 9, a_id, "p-srv-000002"⟩, ⟨0, "B", 9, b_id, "p-srv-000002"⟩] :=
  C10_whole_pair_drop exTopology exMapPartial 9
    ⟨"mmf-om4", "connected", "p-srv-000002", "0000ff"⟩ (by decide)

/-! ## The binding step (`update_terminations_with_cable_ids`, claim C5) -/

/-- Python `enumerate`, starting at index `i`. -/
def enumFrom {α : Type} : Nat → List α → List (Nat × α)
  | _, [] => []
  | i, a :: as => (i, a) :: enumFrom (i + 1) as

/-- The `updated` column family produced by
`update_terminations_with_cable_ids`: the four parallel lists of the bound
terminations (the temporary `_label` column is gone). -/
structure TermData4 where
  cable_id : List Nat
  cable_end : List String
  termination_type_id : List Nat
  termination_id : List Nat
deriving DecidableEq, Repr

/-- The empty `updated` dict. -/
def emptyTermData4 : TermData4 := ⟨[], [], [], []⟩

/-- The loop `for i, label in enumerate(terminations['_label'])`: skip the
row when `label_to_cable_id.get(label)` is `None`, otherwise append the row
with the resolved cable id (the sibling columns are read at index `i`). -/
def updGo (terminations : TermData) (label_to_cable_id : String → Option Nat) :
    List (Nat × String) → TermData4
  | [] => emptyTermData4
  | (i, label) :: rest =>
      match label_to_cable_id label with
      | none => updGo terminations label_to_cable_id rest
      | some cable_id =>
          let u := updGo terminations label_to_cable_id rest
          ⟨cable_id :: u.cable_id,
           terminations.cable_end.getD i "" :: u.cable_end,
           terminations.termination_type_id.getD i 0 :: u.termination_type_id,
           terminations.termination_id.getD i 0 :: u.termination_id⟩

/-- `update_terminations_with_cable_ids(terminations, label_to_cable_id)`
(topology.py lines 420–454). -/
def update_terminations_with_cable_ids (terminations : TermData)
    (label_to_cable_id : String → Option Nat) : TermData4 :=
  updGo terminations label_to_cable_id (enumFrom 0 terminations._label)

/-- One bound termination record. -/
structure TRow4 where
  cable_id : Nat
  cable_end : String
  termination_type_id : Nat
  termination_id : Nat
deriving DecidableEq, Repr

/-- Zip the four bound columns into rows. -/
def zipRows4 : List Nat → List String → List Nat → List Nat → List TRow4
  | a :: as, b :: bs, c :: cs, d :: ds => ⟨a, b, c, d⟩ :: zipRows4 as bs cs ds
  | _, _, _, _ => []

/-- The rows of a `TermData4` column family. -/
def termRows4 (d : TermData4) : List TRow4 :=
  zipRows4 d.cable_id d.cable_end d.termination_type_id d.termination_id

/-- Spec-side description of the bind step: drop every staged termination
row whose cable label is absent from the label→ID map, and rewrite the
`cable_id` of the rest to the mapped id (dropping the `_label` column). -/
def boundRowsSpec (terminations : TermData)
    (label_to_cable_id : String → Option Nat) : List TRow4 :=
  (enumFrom 0 terminations._label).filterMap fun il =>
    (label_to_cable_id il.2).map fun cable_id =>
      ⟨cable_id, terminations.cable_end.getD il.1 "",
       terminations.termination_type_id.getD il.1 0,
       terminations.termination_id.getD il.1 0⟩

theorem updGo_rows (terminations : TermData) (label_to_cable_id : String → Option Nat) :
    ∀ L : List (Nat × String),
      termRows4 (updGo terminations label_to_cable_id L) =
        L.filterMap fun il =>
          (label_to_cable_id il.2).map fun cable_id =>
            ⟨cable_id, terminations.cable_end.getD il.1 "",
             terminations.termination_type_id.getD il.1 0,
             terminations.termination_id.getD il.1 0⟩ := by
  intro L
  induction L with
  | nil => rfl
  | cons il rest ih =>
      obtain ⟨i, label⟩ := il
      rw [List.filterMap_cons]
      cases hm : label_to_cable_id label with
      | none =>
          have h1 : updGo terminations label_to_cable_id ((i, label) :: rest) =
              updGo terminations label_to_cable_id rest := by
            simp [updGo, hm]
          rw [h1, ih]
          simp [hm]
      | some cid =>
          have h1 : updGo terminations label_to_cable_id ((i, label) :: rest) =
              ⟨cid :: (updGo terminations label_to_cable_id rest).cable_id,
               terminations.cable_end.getD i "" ::
                 (updGo terminations label_to_cable_id rest).cable_end,
               terminations.termination_type_id.getD i 0 ::
                 (updGo terminations label_to_cable_id rest).termination_type_id,
               terminations.termination_id.getD i 0 ::
                 (updGo terminations label_to_cable_id rest).termination_id⟩ := by
            simp [updGo, hm]
          rw [h1]
          show (⟨cid, terminations.cable_end.getD i "",
              terminations.termination_type_id.getD i 0,
              terminations.termination_id.getD i 0⟩ : TRow4) ::
              termRows4 (updGo terminations label_to_cable_id rest) = _
          rw [ih]
          simp [hm]

/-- The staged terminations of the C5 scenario: 3 staged cables
(`c1`, `c2`, `c3`), 2 termination rows each. -/
def exStagedTerms : TermData :=
  ⟨[0, 0, 0, 0, 0, 0], ["A", "B", "A", "B", "A", "B"],
   [9, 9, 9, 9, 9, 9], [1, 2, 3, 4, 5, 6], ["c1", "c1", "c2", "c2", "c3", "c3"]⟩

/-- The label→ID map of the C5 scenario: `c2` is absent. -/
def exLabelMap : String → Option Nat := fun label =>
  if label = "c1" then some 101 else if label = "c3" then some 103 else none

/-- **C5.** The bind step drops every termination row whose cable label is
absent from the label→ID map and rewrites the `cable_id` of the rest (first
conjunct, for every staged set and map); in particular, for 3 staged cables
(2 rows each) and a map containing 2 of the 3 labels, the bound output has
exactly 4 rows covering exactly the 2 mapped cables. -/
theorem C5_bind_drops_unmatched_labels :
    (∀ (terminations : TermData) (label_to_cable_id : String → Option Nat),
      termRows4 (update_terminations_with_cable_ids terminations label_to_cable_id) =
        boundRowsSpec terminations label_to_cable_id) ∧
      update_terminations_with_cable_ids exStagedTerms exLabelMap =
        ⟨[101, 101, 103, 103], ["A", "B", "A", "B"], [9, 9, 9, 9], [1, 2, 5, 6]⟩ ∧
      (update_terminations_with_cable_ids exStagedTerms exLabelMap).cable_id.dedup =
        [101, 103] := by
  refine ⟨?_, by decide, by decide⟩
  intro terminations label_to_cable_id
  rw [update_terminations_with_cable_ids, boundRowsSpec]
  exact updGo_rows terminations label_to_cable_id (enumFrom 0 terminations._label)

/-! ## Embedding of `src/turbobulk_client` (client.py, exceptions.py)

The client's effectful methods are embedded as pure functions over a `World`
of oracles (filesystem and remote-service behavior); each returns its Python
return-value-or-raised-exception (`Except`, wrapped in `Option` where the
polling loop may not terminate) together with the list of HTTP requests it
issued, in order. -/

/-- The `data` object of a job-status response
(`result.get("data", {})`; a missing key reads as `none`). -/
structure JobData where
  error : Option String := none
  rows_affected : Option Nat := none
  file_url : Option String := none
  file_path : Option String := none
deriving DecidableEq, Repr

/-- A job-status response — the snapshot `get_job_status` returns. -/
structure JobResult where
  status : String
  data : JobData := {}
  duration_seconds : Option Nat := none
  download_url : Option String := none
deriving DecidableEq, Repr

/-- The exceptions the embedded methods can raise: `TurboBulkError` and its
subclass `JobFailedError` from `exceptions.py` (a `JobFailedError` carries
the whole terminal job snapshot as `job_result`), plus the two
transport-layer exceptions surfaced by `requests`
(`raise_for_status` on a 4xx/5xx answer, and a body that fails to parse as
JSON). -/
inductive TBError where
  | turboBulkError (msg : String)
  | jobFailedError (msg : String) (job_result : JobResult)
  | httpError (code : Nat)
  | jsonError
deriving DecidableEq, Repr

/-- A terminal job status, as tested by `_wait_for_job`. -/
def isTerminal (status : String) : Prop :=
  status = "completed" ∨ status = "errored" ∨ status = "failed"

instance (status : String) : Decidable (isTerminal status) := by
  rw [isTerminal]
  infer_instance

/-- Python `str(b).lower()` for a bool. -/
def pythonBool (b : Bool) : String := if b then "true" else "false"

/-- Python truthiness for an optional list (`if xs:`): an absent or empty
list is falsy. -/
def truthyList {α : Type} : Option (List α) → Option (List α)
  | none => none
  | some l => if l.isEmpty then none else some l

/-- Python truthiness for an optional string (`if s:`): an absent or empty
string is falsy. -/
def truthyStr : Option String → Option String
  | none => none
  | some s => if s = "" then none else some s

/-- The form-data dict posted by `load` (client.py lines 249–268); a field
is `none` when the corresponding key is not added. -/
structure LoadForm where
  model : String
  mode : String
  validation_mode : String
  create_changelogs : String
  conflict_fields : Option String := none
  conflict_constraint : Option String := none
  post_hooks : Option (List (String × Bool)) := none
  dispatch_events : Option String := none
  branch : Option String := none
  dry_run : Option String := none
deriving DecidableEq, Repr

/-- The form-data dict posted by `delete` (client.py lines 340–352). -/
structure DeleteForm where
  model : String
  cascade_nullable_fks : String
  create_changelogs : String
  key_fields : Option String := none
  dispatch_events : Option String := none
  branch : Option String := none
  dry_run : Option String := none
deriving DecidableEq, Repr

/-- The JSON body posted by `export` (client.py lines 429–444). -/
structure ExportForm where
  model : String
  format : String
  include_custom_fields : Bool
  include_tags : Bool
  filters : Option (List (String × String)) := none
  fields : Option (List String) := none
  force_refresh : Option Bool := none
  check_cache_only : Option Bool := none
  client_cache_key : Option String := none
deriving DecidableEq, Repr

/-- An HTTP request issued by the client.  `cancelJob` exists in the
vocabulary so that "the client never cancels the remote job" is expressible;
no embedded method ever emits it (the client has no cancellation call). -/
inductive Request where
  | postLoad (form : LoadForm) (file_name : String)
  | postDelete (form : DeleteForm) (file_name : String)
  | postExport (form : ExportForm)
  | getJobStatus (job_id : String)
  | download (url : String)
  | cancelJob (job_id : String)
deriving DecidableEq, Repr

/-- The JSON body of a `load`/`delete` submission response; only `job_id`
steers the client's control flow. -/
structure LoadResponse where
  job_id : Option String := none
deriving DecidableEq, Repr

/-- Return value of `load`/`delete`: either the submission response returned
as-is (no waiting, or no `job_id`), or the terminal job snapshot. -/
inductive LoadOutcome where
  | immediate (r : LoadResponse)
  | job (j : JobResult)
deriving DecidableEq, Repr

/-- The JSON body of an export response, plus the `status_code`/`path` keys
the client writes into the dict (`none`/`false` model absent keys). -/
structure ExportResult where
  cached : Bool := false
  cache_key : Option String := none
  row_count : Option Nat := none
  data_changed : Option Bool := none
  download_url : Option String := none
  job_id : Option String := none
  status_code : Option Nat := none
  path : Option String := none
deriving DecidableEq, Repr

/-- An export response dict with no keys (`{}`). -/
def emptyExportResult : ExportResult := {}

/-- Return value of `export`: a cache-protocol result dict, or a terminal
job snapshot plus the downloaded file path. -/
inductive ExportOutcome where
  | cache (r : ExportResult)
  | fresh (j : JobResult) (path : String)
deriving DecidableEq, Repr

/-- The environment a client call runs against: the local filesystem and the
remote service's answers.  `jobStatus k` is the job snapshot returned by the
`k`-th status poll; `tmpPath` is the temp-file stem `tempfile.mkstemp`
would produce. -/
structure World where
  pathExists : String → Bool
  loadResp : LoadForm → Nat × Option LoadResponse
  deleteResp : DeleteForm → Nat × Option LoadResponse
  exportResp : ExportForm → Nat × Option ExportResult
  jobStatus : Nat → JobResult
  downloadCode : String → Nat
  tmpPath : String

/-- The client's connection configuration (`TurboBulkClient.__init__`). -/
structure TurboBulkClient where
  base_url : String
deriving DecidableEq, Repr

/-- `self.api_base`. -/
def TurboBulkClient.api_base (c : TurboBulkClient) : String :=
  c.base_url ++ "/api/plugins/turbobulk"

/-! ## `_wait_for_job` (client.py lines 623–658) -/

/-- One unrolling of the `while True` polling loop of `_wait_for_job`,
driven by explicit fuel.  `k` counts completed sleeps, so the elapsed time
at the top of iteration `k` is `k * poll_interval` (polls are modelled as
instantaneous); the loop first checks `elapsed > timeout`, then polls, then
returns on `completed`, raises `JobFailedError` on `errored`/`failed`, and
otherwise sleeps and repeats.  Exhausted fuel (`none`) models
non-termination, which is reachable only when `poll_interval = 0`. -/
def wait_go (jobStatus : Nat → JobResult) (job_id : String)
    (poll_interval timeout : Nat) : Nat → Nat → Option (Except TBError JobResult) × List Request
  | 0, _ => (none, [])
  | fuel + 1, k =>
      if timeout < k * poll_interval then
        (some (.error (.turboBulkError
          ("Job " ++ job_id ++ " timed out after " ++ natLit timeout ++ "s"))), [])
      else
        let result := jobStatus k
        if result.status = "completed" then
          (some (.ok result), [Request.getJobStatus job_id])
        else if result.status = "errored" ∨ result.status = "failed" then
          (some (.error (.jobFailedError
            ("Job failed: " ++ (result.data.error.getD "Unknown error")) result)),
           [Request.getJobStatus job_id])
        else
          let rest := wait_go jobStatus job_id poll_interval timeout fuel (k + 1)
          (rest.1, Request.getJobStatus job_id :: rest.2)

/-- `_wait_for_job(job_id, poll_interval, timeout)`.  Fuel `timeout + 2`
suffices for every positive `poll_interval`: the loop times out no later
than iteration `timeout + 1`. -/
def wait_for_job (jobStatus : Nat → JobResult) (job_id : String)
    (poll_interval timeout : Nat) : Option (Except TBError JobResult) × List Request :=
  wait_go jobStatus job_id poll_interval timeout (timeout + 2) 0

/-! ## `load`, `delete` (client.py lines 197–379) -/

/-- The form data built by `load` (conditional keys are `none` when their
Python truthiness test fails; `post_hooks` carries the dict that
`json.dumps` would serialize). -/
structure LoadArgs where
  model : String
  data_path : String
  mode : String := "insert"
  conflict_fields : Option (List String) := none
  conflict_constraint : Option String := none
  validation_mode : String := "auto"
  post_hooks : Option (List (String × Bool)) := none
  create_changelogs : Bool := true
  dispatch_events : Option Bool := none
  branch : Option String := none
  dry_run : Bool := false
  wait : Bool := true
  poll_interval : Nat := 1
  timeout : Nat := 3600
deriving Repr

/-- Argument record of `delete`. -/
structure DeleteArgs where
  model : String
  data_path : String
  key_fields : Option (List String) := none
  cascade_nullable_fks : Bool := true
  create_changelogs : Bool := true
  dispatch_events : Option Bool := none
  branch : Option String := none
  dry_run : Bool := false
  wait : Bool := true
  poll_interval : Nat := 1
  timeout : Nat := 3600
deriving Repr

/-- The form dict of `load` (client.py lines 249–268). -/
def mkLoadForm (a : LoadArgs) : LoadForm :=
  { model := a.model
    mode := a.mode
    validation_mode := a.validation_mode
    create_changelogs := pythonBool a.create_changelogs
    conflict_fields := (truthyList a.conflict_fields).map (String.intercalate ",")
    conflict_constraint := truthyStr a.conflict_constraint
    post_hooks := truthyList a.post_hooks
    dispatch_events := a.dispatch_events.map pythonBool
    branch := truthyStr a.branch
    dry_run := if a.dry_run then some "true" else none }

/-- The form dict of `delete` (client.py lines 340–352). -/
def mkDeleteForm (a : DeleteArgs) : DeleteForm :=
  { model := a.model
    cascade_nullable_fks := pythonBool a.cascade_nullable_fks
    create_changelogs := pythonBool a.create_changelogs
    key_fields := (truthyList a.key_fields).map (String.intercalate ",")
    dispatch_events := a.dispatch_events.map pythonBool
    branch := truthyStr a.branch
    dry_run := if a.dry_run then some "true" else none }

/-- `load(model, data_path, ...)`: check that the payload file exists
(raising `TurboBulkError` before any request otherwise), post the form and
file, surface transport errors, return the response when not waiting or when
it carries no job id, and otherwise poll the job to completion. -/
def TurboBulkClient.load (_c : TurboBulkClient) (a : LoadArgs) (w : World) :
    Option (Except TBError LoadOutcome) × List Request :=
  if w.pathExists a.data_path = false then
    (some (.error (.turboBulkError ("Data file not found: " ++ a.data_path))), [])
  else
    let form := mkLoadForm a
    let req := Request.postLoad form a.data_path
    let resp := w.loadResp form
    if 400 ≤ resp.1 ∧ resp.1 < 600 then
      (some (.error (.httpError resp.1)), [req])
    else
      match resp.2 with
      | none => (some (.error .jsonError), [req])
      | some r =>
          if a.wait = false then (some (.ok (.immediate r)), [req])
          else
            match truthyStr r.job_id with
            | none => (some (.ok (.immediate r)), [req])
            | some job_id =>
                let wr := wait_for_job w.jobStatus job_id a.poll_interval a.timeout
                ((wr.1).map (fun e => e.map LoadOutcome.job), req :: wr.2)

/-- `delete(model, data_path, ...)`: same lifecycle as `load` against the
delete endpoint. -/
def TurboBulkClient.delete (_c : TurboBulkClient) (a : DeleteArgs) (w : World) :
    Option (Except TBError LoadOutcome) × List Request :=
  if w.pathExists a.data_path = false then
    (some (.error (.turboBulkError ("Data file not found: " ++ a.data_path))), [])
  else
    let form := mkDeleteForm a
    let req := Request.postDelete form a.data_path
    let resp := w.deleteResp form
    if 400 ≤ resp.1 ∧ resp.1 < 600 then
      (some (.error (.httpError resp.1)), [req])
    else
      match resp.2 with
      | none => (some (.error .jsonError), [req])
      | some r =>
          if a.wait = false then (some (.ok (.immediate r)), [req])
          else
            match truthyStr r.job_id with
            | none => (some (.ok (.immediate r)), [req])
            | some job_id =>
                let wr := wait_for_job w.jobStatus job_id a.poll_interval a.timeout
                ((wr.1).map (fun e => e.map LoadOutcome.job), req :: wr.2)

/-! ## `export` and the cache-negotiation protocol (client.py lines 381–572) -/

/-- Argument record of `export`. -/
structure ExportArgs where
  model : String
  filters : Option (List (String × String)) := none
  fields : Option (List String) := none
  include_custom_fields : Bool := true
  include_tags : Bool := true
  format : String := "jsonl"
  output_path : Option String := none
  force_refresh : Bool := false
  check_cache_only : Bool := false
  client_cache_key : Option String := none
  wait : Bool := true
  poll_interval : Nat := 1
  timeout : Nat := 3600
deriving Repr

/-- The JSON body of the export request (client.py lines 429–444):
`force_refresh`/`check_cache_only` keys appear only when the flags are set,
`filters`/`fields`/`client_cache_key` only when truthy. -/
def mkExportForm (a : ExportArgs) : ExportForm :=
  { model := a.model
    format := a.format
    include_custom_fields := a.include_custom_fields
    include_tags := a.include_tags
    filters := truthyList a.filters
    fields := truthyList a.fields
    force_refresh := if a.force_refresh then some true else none
    check_cache_only := if a.check_cache_only then some true else none
    client_cache_key := truthyStr a.client_cache_key }

/-- `_download_export_file(url, output_path, format, verbose)`: resolve a
relative URL against `base_url`, fetch it (a 4xx/5xx answer raises), and
return the output path (the caller's, or a fresh temp path with the
format-determined suffix). -/
def TurboBulkClient.download_export_file (c : TurboBulkClient) (url : String)
    (output_path : Option String) (format : String) (w : World) :
    Except TBError String × List Request :=
  let full_url := if url.startsWith "/" then c.base_url ++ url else url
  let req := Request.download full_url
  let code := w.downloadCode full_url
  if 400 ≤ code ∧ code < 600 then (.error (.httpError code), [req])
  else
    match output_path with
    | some p => (.ok p, [req])
    | none =>
        (.ok (w.tmpPath ++ (if format = "jsonl" then ".jsonl.gz" else ".parquet")), [req])

/-- `export(model, ...)`: post the export request once, then: a 304 answer
is returned as a not-modified cache result; a 4xx/5xx answer raises; with
`check_cache_only` the (status-code-annotated) body is returned immediately;
a 200 answer with `cached` downloads the cached file; without `wait` the
body is returned; otherwise the job id is polled to completion and the fresh
file downloaded. -/
def TurboBulkClient.export_data (c : TurboBulkClient) (a : ExportArgs) (w : World) :
    Option (Except TBError ExportOutcome) × List Request :=
  let form := mkExportForm a
  let req := Request.postExport form
  let resp := w.exportResp form
  if resp.1 = 304 then
    let r := resp.2.getD emptyExportResult
    (some (.ok (.cache { r with status_code := some 304, cached := true })), [req])
  else if 400 ≤ resp.1 ∧ resp.1 < 600 then
    (some (.error (.httpError resp.1)), [req])
  else
    match resp.2 with
    | none => (some (.error .jsonError), [req])
    | some r0 =>
        let r := { r0 with status_code := some resp.1 }
        if a.check_cache_only then (some (.ok (.cache r)), [req])
        else if resp.1 = 200 ∧ r.cached then
          match r.download_url with
          | some url =>
              let d := c.download_export_file url a.output_path a.format w
              match d.1 with
              | .error e => (some (.error e), req :: d.2)
              | .ok p => (some (.ok (.cache { r with path := some p })), req :: d.2)
          | none => (some (.ok (.cache r)), [req])
        else if a.wait = false then (some (.ok (.cache r)), [req])
        else
          match truthyStr r.job_id with
          | none =>
              (some (.error (.turboBulkError "No job_id in export response")), [req])
          | some job_id =>
              let wr := wait_for_job w.jobStatus job_id a.poll_interval a.timeout
              match wr.1 with
              | none => (none, req :: wr.2)
              | some (.error e) => (some (.error e), req :: wr.2)
              | some (.ok j) =>
                  let durl := ((truthyStr j.download_url).or
                    (truthyStr j.data.file_url)).getD
                    (c.api_base ++ "/jobs/" ++ job_id ++ "/download/")
                  let d := c.download_export_file durl a.output_path a.format w
                  match d.1 with
                  | .error e => (some (.error e), req :: wr.2 ++ d.2)
                  | .ok p => (some (.ok (.fresh j p)), req :: wr.2 ++ d.2)

/-- `check_export_cache(...)` (client.py lines 531–572): the convenience
wrapper calling `export` with `check_cache_only := true` and
`wait := false`. -/
def TurboBulkClient.check_export_cache (c : TurboBulkClient) (model : String)
    (filters : Option (List (String × String))) (fields : Option (List String))
    (include_custom_fields include_tags : Bool) (format : String)
    (client_cache_key : Option String) (w : World) :
    Option (Except TBError ExportOutcome) × List Request :=
  c.export_data
    { model := model, filters := filters, fields := fields,
      include_custom_fields := include_custom_fields, include_tags := include_tags,
      format := format, check_cache_only := true, client_cache_key := client_cache_key,
      wait := false } w

/-! ## Claims C3 and C8: timeout and terminal failure in `_wait_for_job` -/

theorem wait_go_timeout (jobStatus : Nat → JobResult) (job_id : String) (ν τ : Nat)
    (hpos : 1 ≤ ν)
    (hnt : ∀ j, j * ν ≤ τ → ¬ isTerminal (jobStatus j).status) :
    ∀ (fuel k : Nat), τ + 2 ≤ fuel + k → k ≤ τ + 1 →
      (wait_go jobStatus job_id ν τ fuel k).1 =
        some (.error (.turboBulkError
          ("Job " ++ job_id ++ " timed out after " ++ natLit τ ++ "s"))) ∧
      ∀ r ∈ (wait_go jobStatus job_id ν τ fuel k).2, r = Request.getJobStatus job_id := by
  intro fuel
  induction fuel with
  | zero => intro k h1 h2; omega
  | succ f ih =>
      intro k h1 h2
      by_cases htime : τ < k * ν
      · constructor
        · simp [wait_go, htime]
        · intro r hr
          simp [wait_go, htime] at hr
      · have hk : k * ν ≤ τ := by omega
        have hterm := hnt k hk
        have hnc : ¬ (jobStatus k).status = "completed" := fun hcomp => hterm (Or.inl hcomp)
        have hne2 : ¬ ((jobStatus k).status = "errored" ∨ (jobStatus k).status = "failed") :=
          fun hor => hterm (Or.inr hor)
        have hkk : k * 1 ≤ k * ν := Nat.mul_le_mul_left k hpos
        have ihk := ih (k + 1) (by omega) (by omega)
        constructor
        · simp only [wait_go, if_neg htime, if_neg hnc, if_neg hne2]
          exact ihk.1
        · intro r hr
          simp only [wait_go, if_neg htime, if_neg hnc, if_neg hne2] at hr
          rcases List.mem_cons.mp hr with rfl | hr2
          · rfl
          · exact ihk.2 r hr2

theorem wait_go_failed (jobStatus : Nat → JobResult) (job_id : String) (ν τ K : Nat)
    (hK : K * ν ≤ τ)
    (hpre : ∀ j, j < K → ¬ isTerminal (jobStatus j).status)
    (hfail : (jobStatus K).status = "errored" ∨ (jobStatus K).status = "failed") :
    ∀ (fuel k : Nat), k ≤ K → K < fuel + k →
      (wait_go jobStatus job_id ν τ fuel k).1 =
        some (.error (.jobFailedError
          ("Job failed: " ++ ((jobStatus K).data.error.getD "Unknown error"))
          (jobStatus K))) := by
  intro fuel
  induction fuel with
  | zero => intro k h1 h2; omega
  | succ f ih =>
      intro k h1 h2
      have hkν : k * ν ≤ K * ν := Nat.mul_le_mul_right ν h1
      have htime : ¬ τ < k * ν := by omega
      rcases Nat.lt_or_ge k K with hlt | hge
      · have hterm := hpre k hlt
        have hnc : ¬ (jobStatus k).status = "completed" := fun hcomp => hterm (Or.inl hcomp)
        have hne2 : ¬ ((jobStatus k).status = "errored" ∨ (jobStatus k).status = "failed") :=
          fun hor => hterm (Or.inr hor)
        simp only [wait_go, if_neg htime, if_neg hnc, if_neg hne2]
        exact ih (k + 1) (by omega) (by omega)
      · have hkK : k = K := by omega
        subst hkK
        have hnc : ¬ (jobStatus k).status = "completed" := by
          rcases hfail with hs | hs <;> rw [hs] <;> decide
        simp only [wait_go, if_neg htime, if_neg hnc, if_pos hfail]

/-- **C3.** When no terminal status (`completed`, `errored`, `failed`) is
observed by any poll inside the caller's timeout budget, `_wait_for_job`
raises its timeout error (the spec taxonomy's `TimeoutError`: the base
`TurboBulkError` with the timed-out message, distinct from `JobFailedError`)
— raised locally, and the only requests ever issued are status polls: in
particular no cancellation call is made against the remote job. -/
theorem C3_timeout_no_cancel (jobStatus : Nat → JobResult) (job_id : String)
    (poll_interval timeout : Nat) (hpos : 1 ≤ poll_interval)
    (hnt : ∀ k, k * poll_interval ≤ timeout → ¬ isTerminal (jobStatus k).status) :
    (wait_for_job jobStatus job_id poll_interval timeout).1 =
      some (.error (.turboBulkError
        ("Job " ++ job_id ++ " timed out after " ++ natLit timeout ++ "s"))) ∧
    ∀ r ∈ (wait_for_job jobStatus job_id poll_interval timeout).2,
      r = Request.getJobStatus job_id :=
  wait_go_timeout jobStatus job_id poll_interval timeout hpos hnt (timeout + 2) 0
    (by omega) (by omega)

theorem C3_timeout_no_cancel_witness :
    (wait_for_job (fun _ => { status := "running" }) "job-1" 1 3).1 =
      some (.error (.turboBulkError
        ("Job " ++ "job-1" ++ " timed out after " ++ natLit 3 ++ "s"))) ∧
    ∀ r ∈ (wait_for_job (fun _ => { status := "running" }) "job-1" 1 3).2,
      r = Request.getJobStatus "job-1" :=
  C3_timeout_no_cancel (fun _ => { status := "running" }) "job-1" 1 3 (by omega)
    (fun _ _ => by show ¬ isTerminal "running"; decide)

/-- **C8.** When the first terminal status a poll observes is `errored` or
`failed` (at poll `K`, within the timeout budget), `_wait_for_job` raises
`JobFailedError` whose `job_result` payload is the entire job snapshot that
poll returned — status, data and diagnostics — not just the message. -/
theorem C8_job_failed_full_snapshot (jobStatus : Nat → JobResult) (job_id : String)
    (poll_interval timeout K : Nat) (hpos : 1 ≤ poll_interval)
    (hK : K * poll_interval ≤ timeout)
    (hpre : ∀ j, j < K → ¬ isTerminal (jobStatus j).status)
    (hfail : (jobStatus K).status = "errored" ∨ (jobStatus K).status = "failed") :
    (wait_for_job jobStatus job_id poll_interval timeout).1 =
      some (.error (.jobFailedError
        ("Job failed: " ++ ((jobStatus K).data.error.getD "Unknown error"))
        (jobStatus K))) := by
  have hkk : K * 1 ≤ K * poll_interval := Nat.mul_le_mul_left K hpos
  exact wait_go_failed jobStatus job_id poll_interval timeout K hK hpre hfail
    (timeout + 2) 0 (by omega) (by omega)

/-- A job that runs for two polls and then fails with diagnostics. -/
def exFailOracle : Nat → JobResult := fun k =>
  if k < 2 then { status := "running" }
  else { status := "failed", data := { error := some "boom", rows_affected := some 5 },
         duration_seconds := some 7 }

theorem C8_job_failed_full_snapshot_witness :
    (wait_for_job exFailOracle "job-9" 1 10).1 =
      some (.error (.jobFailedError
        ("Job failed: " ++ ((exFailOracle 2).data.error.getD "Unknown error"))
        (exFailOracle 2))) :=
  C8_job_failed_full_snapshot exFailOracle "job-9" 1 10 2 (by omega) (by omega)
    (by decide) (by decide)

/-! ## Claim C9: missing payload file fails before any network call -/

/-- **C9.** A `load` or `delete` call whose payload file does not exist
raises the missing-file error (the spec taxonomy's `InvalidInputError`:
`TurboBulkError` with the data-file-not-found message) with an empty request
trace: no network request is made and no job is submitted. -/
theorem C9_missing_file_fails_before_network (c : TurboBulkClient) (la : LoadArgs)
    (da : DeleteArgs) (w : World)
    (h1 : w.pathExists la.data_path = false) (h2 : w.pathExists da.data_path = false) :
    c.load la w =
      (some (.error (.turboBulkError ("Data file not found: " ++ la.data_path))), []) ∧
    c.delete da w =
      (some (.error (.turboBulkError ("Data file not found: " ++ da.data_path))), []) := by
  constructor
  · simp [TurboBulkClient.load, h1]
  · simp [TurboBulkClient.delete, h2]

/-- A world whose filesystem has no files and whose remote answers are
inert. -/
def exEmptyWorld : World :=
  { pathExists := fun _ => false
    loadResp := fun _ => (200, none)
    deleteResp := fun _ => (200, none)
    exportResp := fun _ => (200, none)
    jobStatus := fun _ => { status := "running" }
    downloadCode := fun _ => 200
    tmpPath := "tmp-export" }

theorem C9_missing_file_fails_before_network_witness :
    TurboBulkClient.load ⟨"http://netbox"⟩
        { model := "dcim.site", data_path := "sites.jsonl.gz" } exEmptyWorld =
      (some (.error (.turboBulkError ("Data file not found: " ++ "sites.jsonl.gz"))), []) ∧
    TurboBulkClient.delete ⟨"http://netbox"⟩
        { model := "dcim.site", data_path := "old.jsonl.gz" } exEmptyWorld =
      (some (.error (.turboBulkError ("Data file not found: " ++ "old.jsonl.gz"))), []) :=
  C9_missing_file_fails_before_network ⟨"http://netbox"⟩
    { model := "dcim.site", data_path := "sites.jsonl.gz" }
    { model := "dcim.site", data_path := "old.jsonl.gz" } exEmptyWorld rfl rfl

/-! ## Claims C4 and C7: the cache-negotiation protocol of `export` -/

/-- **C4.** An export call with `check_cache_only` set issues exactly one
request — the export status request itself, whose body carries
`check_cache_only = true` so the server creates no job — and returns the
cache-status body (annotated with the HTTP status code) immediately:
whatever the server answers, there is no job poll and no file download, and
on any non-304, non-error answer the result is exactly the returned
cache-status dict. -/
theorem C4_check_cache_only_single_request (c : TurboBulkClient) (a : ExportArgs)
    (w : World) (h : a.check_cache_only = true) :
    (c.export_data a w).2 = [Request.postExport (mkExportForm a)] ∧
    (mkExportForm a).check_cache_only = some true ∧
    ∀ code body, w.exportResp (mkExportForm a) = (code, some body) → code ≠ 304 →
      ¬(400 ≤ code ∧ code < 600) →
      (c.export_data a w).1 =
        some (.ok (.cache { body with status_code := some code })) := by
  rcases hresp : w.exportResp (mkExportForm a) with ⟨code, body⟩
  refine ⟨?_, by simp [mkExportForm, h], ?_⟩
  · by_cases h304 : code = 304
    · simp [TurboBulkClient.export_data, hresp, h304]
    · by_cases herr : 400 ≤ code ∧ code < 600
      · simp [TurboBulkClient.export_data, hresp, h304, herr]
      · cases body with
        | none => simp [TurboBulkClient.export_data, hresp, h304, herr]
        | some r0 => simp [TurboBulkClient.export_data, hresp, h304, herr, h]
  · intro code2 body2 hr h304 herr
    rcases (Prod.mk.injEq _ _ _ _).mp hr with ⟨h1, h2⟩
    subst h1
    subst h2
    simp [TurboBulkClient.export_data, hresp, h304, herr, h]

/-- The server's cache-status answer used in the C4 witness. -/
def exCheckBody : ExportResult := { cached := false, data_changed := some true }

/-- A world whose export endpoint reports a cold cache. -/
def exCheckWorld : World :=
  { pathExists := fun _ => true
    loadResp := fun _ => (200, none)
    deleteResp := fun _ => (200, none)
    exportResp := fun _ => (200, some exCheckBody)
    jobStatus := fun _ => { status := "running" }
    downloadCode := fun _ => 200
    tmpPath := "tmp-export" }

/-- The `check_cache_only` export call of the C4 witness. -/
def exCheckArgs : ExportArgs := { model := "dcim.device", check_cache_only := true }

theorem C4_check_cache_only_single_request_witness :
    (TurboBulkClient.export_data ⟨"http://netbox"⟩ exCheckArgs exCheckWorld).2 =
      [Request.postExport (mkExportForm exCheckArgs)] ∧
    (mkExportForm exCheckArgs).check_cache_only = some true ∧
    (TurboBulkClient.export_data ⟨"http://netbox"⟩ exCheckArgs exCheckWorld).1 =
      some (.ok (.cache { exCheckBody with status_code := some 200 })) := by
  have h := C4_check_cache_only_single_request ⟨"http://netbox"⟩ exCheckArgs exCheckWorld rfl
  exact ⟨h.1, h.2.1, h.2.2 200 exCheckBody rfl (by decide) (by decide)⟩

/-- Modelled from the spec (§4.2 outcome 1 and §6; the remote service is not
part of this repository): the export endpoint answers `304 Not Modified`
with an empty body exactly when the submitted `client_cache_key` equals its
current cache key, and some other answer `missResp` otherwise. -/
def serverExportAnswer (serverKey : String) (missResp : Nat × Option ExportResult)
    (form : ExportForm) : Nat × Option ExportResult :=
  if form.client_cache_key = some serverKey then (304, none) else missResp

/-- **C7.** When the supplied `client_cache_key` equals the server's current
cache key — so the (spec-modelled) server answers 304 Not Modified — the
export outcome is NotModified: the returned result is marked `cached` with
`status_code` 304, and the request trace is the single export request, so no
file download is performed. -/
theorem C7_client_key_match_not_modified (c : TurboBulkClient) (a : ExportArgs)
    (w : World) (serverKey : String) (missResp : Nat × Option ExportResult)
    (hck : a.client_cache_key = some serverKey) (hkey : serverKey ≠ "")
    (hsrv : w.exportResp (mkExportForm a) =
      serverExportAnswer serverKey missResp (mkExportForm a)) :
    (c.export_data a w).1 =
      some (.ok (.cache
        { emptyExportResult with status_code := some 304, cached := true })) ∧
    (c.export_data a w).2 = [Request.postExport (mkExportForm a)] := by
  have hform : (mkExportForm a).client_cache_key = some serverKey := by
    simp [mkExportForm, truthyStr, hck, hkey]
  have hresp : w.exportResp (mkExportForm a) = (304, none) := by
    rw [hsrv, serverExportAnswer, if_pos hform]
  constructor <;> simp [TurboBulkClient.export_data, hresp, emptyExportResult]

/-- The miss-side answer the C7 witness server would give to other keys. -/
def exMissResp : Nat × Option ExportResult :=
  (200, some { cached := true, download_url := some "/files/x" })

/-- A world whose export endpoint implements the spec-modelled conditional
answer for current key `key-1`. -/
def exCacheWorld : World :=
  { pathExists := fun _ => true
    loadResp := fun _ => (200, none)
    deleteResp := fun _ => (200, none)
    exportResp := serverExportAnswer "key-1" exMissResp
    jobStatus := fun _ => { status := "running" }
    downloadCode := fun _ => 200
    tmpPath := "tmp-export" }

/-- The export call of the C7 witness, submitting the matching cache key. -/
def exKeyArgs : ExportArgs := { model := "dcim.device", client_cache_key := some "key-1" }

theorem C7_client_key_match_not_modified_witness :
    (TurboBulkClient.export_data ⟨"http://netbox"⟩ exKeyArgs exCacheWorld).1 =
      some (.ok (.cache
        { emptyExportResult with status_code := some 304, cached := true })) ∧
    (TurboBulkClient.export_data ⟨"http://netbox"⟩ exKeyArgs exCacheWorld).2 =
      [Request.postExport (mkExportForm exKeyArgs)] :=
  C7_client_key_match_not_modified ⟨"http://netbox"⟩ exKeyArgs exCacheWorld "key-1"
    exMissResp rfl (by decide) rfl
